import Mathlib

/-!
# Theme toggle: `static/js/theme.js`

A shallow embedding of the dark/light theme script.  The script touches four pieces of
browser state, which are made explicit here:

* `localStorage`: a string-to-string store; the browser may refuse access to it, and a
  write raises when the store has no room for it,
* the result of the media query `(prefers-color-scheme: dark)`,
* the `data-theme` attribute of the document root,
* the `className` of the element with id `themeIcon`, when such an element exists.

JavaScript values that are `null` are `none`; a JavaScript exception is `Except.error`.
In each function of the script the only calls that can raise are the storage calls, and each
of them comes before any write to the document, so a call that raises has changed nothing.

The script is evaluated before the document is loaded, so the icon element can enter the
document after script evaluation; the page lifetime below has an event for that.
-/

namespace ThemeJs

/-! ## Browser state -/

/-- Exceptions the script can meet: the browser refuses access to `localStorage`, or a
write exceeds the room the store has. -/
inductive JsError where
  | securityError
  | quotaExceededError
  deriving DecidableEq, Repr

deriving instance DecidableEq for Except

/-- The origin's `localStorage`: whether access is permitted, the room the browser grants
(counted in characters of keys and values), and the stored pairs. -/
structure LocalStorage where
  accessible : Bool
  quota : Nat
  items : List (String × String)
  deriving DecidableEq, Repr

/-- The part of the browser state the script reads or writes. -/
structure State where
  /-- The object `localStorage`. -/
  localStorage : LocalStorage
  /-- The value of `window.matchMedia('(prefers-color-scheme: dark)').matches`. -/
  prefersDark : Bool
  /-- The attribute `data-theme` of `document.documentElement` (`none`: not set). -/
  dataTheme : Option String
  /-- The `className` of `document.getElementById('themeIcon')` (`none`: no such element). -/
  themeIcon : Option String
  deriving DecidableEq, Repr

/-- First value stored under key `k`, if any. -/
def lookupItem (k : String) : List (String × String) → Option String
  | [] => none
  | (k', v) :: rest => if k' = k then some v else lookupItem k rest

/-- Store `v` under key `k`: replace the value of an existing key, else add the pair. -/
def storeItem (k v : String) : List (String × String) → List (String × String)
  | [] => [(k, v)]
  | (k', v') :: rest => if k' = k then (k, v) :: rest else (k', v') :: storeItem k v rest

/-- The room the stored pairs take: the characters of all keys and values. -/
def usage : List (String × String) → Nat
  | [] => 0
  | (k, v) :: rest => k.length + v.length + usage rest

/-- The call `localStorage.getItem(k)`: the stored string or `null`. -/
def LocalStorage.getItem (ls : LocalStorage) (k : String) : Except JsError (Option String) :=
  if ls.accessible then .ok (lookupItem k ls.items) else .error .securityError

/-- The call `localStorage.setItem(k, v)`: it raises when access is refused, and when the
store with `v` under `k` would take more room than the quota. -/
def LocalStorage.setItem (ls : LocalStorage) (k v : String) : Except JsError LocalStorage :=
  if ls.accessible then
    if usage (storeItem k v ls.items) ≤ ls.quota then
      .ok { ls with items := storeItem k v ls.items }
    else .error .quotaExceededError
  else .error .securityError

/-- JavaScript truthiness of a value that is `null` or a string: non-null and non-empty. -/
def truthy : Option String → Bool
  | none => false
  | some v => v != ""

/-- The JavaScript expression `x || d` for `x` a string or `null` and `d` a string. -/
def orDefault (x : Option String) (d : String) : String :=
  match x with
  | some v => if truthy (some v) then v else d
  | none => d

/-! ## The script -/

/-- The constant `THEME_KEY`. -/
def THEME_KEY : String := "outline-pdf-theme"

/-- The function `getSystemTheme`. -/
def getSystemTheme (s : State) : String :=
  if s.prefersDark then "dark" else "light"

/-- The function `getPreferredTheme`: the stored value when truthy, else the system theme. -/
def getPreferredTheme (s : State) : Except JsError String :=
  match s.localStorage.getItem THEME_KEY with
  | .error e => .error e
  | .ok stored =>
    match stored with
    | some v => if truthy (some v) then .ok v else .ok (getSystemTheme s)
    | none => .ok (getSystemTheme s)

/-- The function `applyTheme`: set the root attribute, and the icon class if the icon exists. -/
def applyTheme (theme : String) (s : State) : State :=
  { s with
    dataTheme := some theme
    themeIcon :=
      match s.themeIcon with
      | some _ => some (if theme = "dark" then "bi bi-sun-fill" else "bi bi-moon-fill")
      | none => none }

/-- The function `toggleTheme`. -/
def toggleTheme (s : State) : Except JsError State :=
  let current := orDefault s.dataTheme "light"
  let next := if current = "dark" then "light" else "dark"
  match s.localStorage.setItem THEME_KEY next with
  | .error e => .error e
  | .ok ls => .ok (applyTheme next { s with localStorage := ls })

/-- The statement `applyTheme(getPreferredTheme())` run when the script is evaluated. -/
def startup (s : State) : Except JsError State :=
  match getPreferredTheme s with
  | .error e => .error e
  | .ok theme => .ok (applyTheme theme s)

/-- The listener registered for the media query's `change` event; `eMatches` is `e.matches`. -/
def changeListener (eMatches : Bool) (s : State) : Except JsError State :=
  match s.localStorage.getItem THEME_KEY with
  | .error e => .error e
  | .ok stored =>
    if !truthy stored then .ok (applyTheme (if eMatches then "dark" else "light") s)
    else .ok s

/-- A system-preference change reported as `v`: the media query now answers `v`, and the
listener runs with `e.matches = v`. -/
def systemChange (v : Bool) (s : State) : Except JsError State :=
  changeListener v { s with prefersDark := v }

/-! ## Page lifetime -/

/-- What can happen after the script has been evaluated: a call of `toggleTheme`, a
system-preference notification, and a change of the document that leaves the element
`themeIcon` absent (`none`) or present with the class its markup gives it. The last is what
happens when the document is loaded after the script has run. -/
inductive Event where
  | toggle
  | system (reported : Bool)
  | document (icon : Option String)
  deriving DecidableEq, Repr

/-- The state after one event. A handler that raises has changed nothing, and the page
goes on; a notification changes the media query's answer whether or not its listener
raises. -/
def step (e : Event) (s : State) : State :=
  match e with
  | .toggle =>
    match toggleTheme s with
    | .ok s' => s'
    | .error _ => s
  | .system v =>
    match systemChange v s with
    | .ok s' => s'
    | .error _ => { s with prefersDark := v }
  | .document icon => { s with themeIcon := icon }

/-- The state after a sequence of events, in order. -/
def run : List Event → State → State
  | [], s => s
  | e :: es, s => run es (step e s)

/-- Script evaluation at page load, followed by the events `es`. When script evaluation
raises, the listener is not registered and `toggleTheme` is not exported: there is no page
lifetime. -/
def pageLife (es : List Event) (s0 : State) : Except JsError State :=
  match startup s0 with
  | .error x => .error x
  | .ok s => .ok (run es s)

/-- The system preference most recently reported: the last notified value, or the value
queried at startup when there was no notification. -/
def lastReported (initial : Bool) : List Event → Bool
  | [] => initial
  | .toggle :: es => lastReported initial es
  | .system v :: es => lastReported v es
  | .document _ :: es => lastReported initial es

/-- The state invariant kept by the script once it has been evaluated: storage is accessible;
a truthy stored value is the root attribute; without one the root attribute is the system
theme. -/
def Coherent (s : State) : Prop :=
  s.localStorage.accessible = true ∧
  (∀ p, lookupItem THEME_KEY s.localStorage.items = some p → p ≠ "" →
    s.dataTheme = some p) ∧
  (truthy (lookupItem THEME_KEY s.localStorage.items) = false →
    s.dataTheme = some (getSystemTheme s))

/-- The icon, when there is one, carries the class `applyTheme` gives it for the root
attribute. -/
def IconSynced (s : State) : Prop :=
  ∀ c, s.themeIcon = some c → ∃ t, s.dataTheme = some t ∧
    c = if t = "dark" then "bi bi-sun-fill" else "bi bi-moon-fill"

/-! ## Storage lemmas -/

theorem lookupItem_storeItem (k v : String) (items : List (String × String)) :
    lookupItem k (storeItem k v items) = some v := by
  induction items with
  | nil => simp [storeItem, lookupItem]
  | cons hd tl ih =>
    obtain ⟨k', v'⟩ := hd
    by_cases h : k' = k
    · simp [storeItem, lookupItem, h]
    · simp [storeItem, lookupItem, h, ih]

theorem lookupItem_storeItem_isSome (k v k2 : String) (items : List (String × String))
    (h : (lookupItem k2 items).isSome) : (lookupItem k2 (storeItem k v items)).isSome := by
  induction items with
  | nil => simp [lookupItem] at h
  | cons hd tl ih =>
    obtain ⟨k', v'⟩ := hd
    by_cases hk : k' = k
    · subst hk
      by_cases h2 : k' = k2
      · simp [storeItem, lookupItem, h2]
      · simpa [storeItem, lookupItem, h2] using h
    · by_cases h2 : k' = k2
      · subst h2
        simp [storeItem, lookupItem, hk]
      · simp only [storeItem, lookupItem, hk, h2, if_false] at h ⊢
        exact ih h

/-- Writing a key twice leaves what the second write alone leaves. -/
theorem storeItem_storeItem (k v w : String) (items : List (String × String)) :
    storeItem k v (storeItem k w items) = storeItem k v items := by
  induction items with
  | nil => simp [storeItem]
  | cons hd tl ih =>
    obtain ⟨k', v'⟩ := hd
    by_cases h : k' = k
    · simp [storeItem, h]
    · simp [storeItem, h, ih]

theorem accessible_of_getItem {ls : LocalStorage} {k : String} {o : Option String}
    (h : ls.getItem k = .ok o) : ls.accessible = true ∧ lookupItem k ls.items = o := by
  unfold LocalStorage.getItem at h
  by_cases hacc : ls.accessible = true
  · simp [hacc] at h
    exact ⟨hacc, h⟩
  · simp [hacc] at h

theorem getItem_of_accessible {ls : LocalStorage} (k : String) (h : ls.accessible = true) :
    ls.getItem k = .ok (lookupItem k ls.items) := by
  simp [LocalStorage.getItem, h]

/-- What a write that returns has done. -/
theorem setItem_ok {ls ls' : LocalStorage} {k v : String} (h : ls.setItem k v = .ok ls') :
    ls.accessible = true ∧ usage (storeItem k v ls.items) ≤ ls.quota ∧
      ls' = { ls with items := storeItem k v ls.items } := by
  unfold LocalStorage.setItem at h
  by_cases hacc : ls.accessible = true
  · by_cases hq : usage (storeItem k v ls.items) ≤ ls.quota
    · rw [if_pos hacc, if_pos hq] at h
      exact ⟨hacc, hq, (Except.ok.inj h).symm⟩
    · simp [hacc, hq] at h
  · simp [hacc] at h

/-- A value the store has room for under `k` is still accepted after another write to `k`. -/
theorem setItem_after_store {ls ls' : LocalStorage} {k v : String} (w : String)
    (h : ls.setItem k v = .ok ls') :
    ({ ls with items := storeItem k w ls.items } : LocalStorage).setItem k v = .ok ls' := by
  obtain ⟨hacc, hq, hls⟩ := setItem_ok h
  simp [LocalStorage.setItem, hacc, storeItem_storeItem, hq, hls]

theorem truthy_some_iff (v : String) : truthy (some v) = true ↔ v ≠ "" := by
  simp [truthy]

/-- The test `current === 'dark'` in `toggleTheme` succeeds exactly when the root attribute
is `'dark'`. -/
theorem orDefault_eq_dark_iff (x : Option String) :
    orDefault x "light" = "dark" ↔ x = some "dark" := by
  cases x with
  | none => simp [orDefault]
  | some v =>
    by_cases hv : v = ""
    · subst hv
      simp [orDefault, truthy]
    · simp [orDefault, (truthy_some_iff v).2 hv]

/-- The theme `toggleTheme` computes, in terms of the root attribute. -/
theorem toggle_next_eq (x : Option String) :
    (if orDefault x "light" = "dark" then "light" else "dark") =
      (if x = some "dark" then "light" else "dark") := by
  by_cases h : x = some "dark"
  · rw [if_pos h, if_pos ((orDefault_eq_dark_iff x).2 h)]
  · rw [if_neg h, if_neg (fun hc => h ((orDefault_eq_dark_iff x).1 hc))]

/-- When the write is accepted `toggleTheme` returns, and this is what it leaves behind. -/
theorem toggleTheme_next (s : State) (next : String) (ls : LocalStorage)
    (hn : (if s.dataTheme = some "dark" then "light" else "dark") = next)
    (hw : s.localStorage.setItem THEME_KEY next = .ok ls) :
    ∃ s', toggleTheme s = .ok s' ∧ s'.localStorage = ls ∧
      s'.localStorage.getItem THEME_KEY = .ok (some next) ∧ s'.dataTheme = some next ∧
      s'.prefersDark = s.prefersDark ∧
      s'.themeIcon = s.themeIcon.map
        (fun _ => if next = "dark" then "bi bi-sun-fill" else "bi bi-moon-fill") := by
  obtain ⟨hacc, _, hls⟩ := setItem_ok hw
  refine ⟨applyTheme next { s with localStorage := ls }, ?_, rfl, ?_, rfl, rfl, ?_⟩
  · simp only [toggleTheme, toggle_next_eq, hn, hw]
  · subst hls
    simp [applyTheme, LocalStorage.getItem, hacc, lookupItem_storeItem]
  · cases hi : s.themeIcon <;> simp [applyTheme, hi]

/-- When the write raises `toggleTheme` raises the same error. -/
theorem toggleTheme_raises (s : State) (e : JsError)
    (hw : s.localStorage.setItem THEME_KEY
      (if s.dataTheme = some "dark" then "light" else "dark") = .error e) :
    toggleTheme s = .error e := by
  simp only [toggleTheme, toggle_next_eq, hw]

/-- A `toggleTheme` call that returns has had its write accepted. -/
theorem toggleTheme_ok_inv (s s' : State) (h : toggleTheme s = .ok s') :
    ∃ ls, s.localStorage.setItem THEME_KEY
      (if s.dataTheme = some "dark" then "light" else "dark") = .ok ls := by
  cases hw : s.localStorage.setItem THEME_KEY
      (if s.dataTheme = some "dark" then "light" else "dark") with
  | ok ls => exact ⟨ls, rfl⟩
  | error e =>
    rw [toggleTheme_raises s e hw] at h
    cases h

/-! ## Preference resolution -/

/-- C1. Override precedence: when storage holds `p` under `'outline-pdf-theme'`, with `p`
either `'dark'` or `'light'`, `getPreferredTheme` returns `p` whatever the system preference
is; with `'light'` stored and a dark system it returns `'light'`. -/
theorem getPreferredTheme_stored (s : State) (p : String)
    (hp : p = "dark" ∨ p = "light")
    (hs : s.localStorage.getItem THEME_KEY = .ok (some p)) :
    (∀ sys : Bool, getPreferredTheme { s with prefersDark := sys } = .ok p) ∧
      getPreferredTheme s = .ok p := by
  have key : ∀ sys : Bool, getPreferredTheme { s with prefersDark := sys } = .ok p := by
    intro sys
    rcases hp with rfl | rfl <;> simp [getPreferredTheme, hs, truthy]
  refine ⟨key, ?_⟩
  simpa using key s.prefersDark

theorem getPreferredTheme_stored_witness :
    (∀ sys : Bool, getPreferredTheme
        { ({ localStorage := ⟨true, 64, [("outline-pdf-theme", "light")]⟩, prefersDark := true,
             dataTheme := none, themeIcon := none } : State) with prefersDark := sys }
        = .ok "light") ∧
      getPreferredTheme
        { localStorage := ⟨true, 64, [("outline-pdf-theme", "light")]⟩, prefersDark := true,
          dataTheme := none, themeIcon := none } = .ok "light" :=
  getPreferredTheme_stored _ "light" (Or.inr rfl) (by decide)

/-- C2. Default fallback: when nothing is stored under the key, `getPreferredTheme` returns
the system theme: `'dark'` when the dark query matches and `'light'` otherwise. -/
theorem getPreferredTheme_absent (s : State)
    (hs : s.localStorage.getItem THEME_KEY = .ok none) :
    getPreferredTheme s = .ok (getSystemTheme s) ∧
      (s.prefersDark = true → getPreferredTheme s = .ok "dark") ∧
      (s.prefersDark = false → getPreferredTheme s = .ok "light") := by
  have h : getPreferredTheme s = .ok (getSystemTheme s) := by
    simp [getPreferredTheme, hs]
  refine ⟨h, ?_, ?_⟩ <;> intro hd <;> simp [h, getSystemTheme, hd]

theorem getPreferredTheme_absent_witness :
    getPreferredTheme ⟨⟨true, 64, []⟩, true, none, none⟩
        = .ok (getSystemTheme ⟨⟨true, 64, []⟩, true, none, none⟩) ∧
      ((true = true) → getPreferredTheme ⟨⟨true, 64, []⟩, true, none, none⟩ = .ok "dark") ∧
      ((true = false) → getPreferredTheme ⟨⟨true, 64, []⟩, true, none, none⟩ = .ok "light") :=
  getPreferredTheme_absent ⟨⟨true, 64, []⟩, true, none, none⟩ (by decide)

/-! ## Manual toggle -/

/-- C3, as stated, fails: with nothing stored under the key and a store that has no room,
the store can be read but the write of `toggleTheme` raises, and after the call the stored
preference is still absent and nothing has been applied. -/
theorem toggle_raises_without_room :
    (⟨⟨true, 0, []⟩, false, none, none⟩ : State).localStorage.getItem THEME_KEY = .ok none ∧
      toggleTheme ⟨⟨true, 0, []⟩, false, none, none⟩ = .error .quotaExceededError ∧
      (step .toggle ⟨⟨true, 0, []⟩, false, none, none⟩).localStorage.getItem THEME_KEY
        = .ok none ∧
      (step .toggle ⟨⟨true, 0, []⟩, false, none, none⟩).dataTheme = none := by
  decide

/-- C3, amended. Toggle sets the override when its write is accepted: from a state with
nothing stored under the key, if the root attribute is unset or `'light'` and the store
accepts `'dark'` under the key, one `toggleTheme` call returns a state with `'dark'` stored
and applied; if the root attribute is `'dark'` and the store accepts `'light'`, it returns a
state with `'light'` stored and applied. If the write raises, `toggleTheme` raises the same
error, and after the call nothing is stored under the key and the state is as it was. -/
theorem toggleTheme_sets_override (s : State)
    (hs : s.localStorage.getItem THEME_KEY = .ok none) :
    ((s.dataTheme = none ∨ s.dataTheme = some "light") →
        (∃ ls, s.localStorage.setItem THEME_KEY "dark" = .ok ls) →
        ∃ s', toggleTheme s = .ok s' ∧
          s'.localStorage.getItem THEME_KEY = .ok (some "dark") ∧
          s'.dataTheme = some "dark") ∧
      (s.dataTheme = some "dark" →
        (∃ ls, s.localStorage.setItem THEME_KEY "light" = .ok ls) →
        ∃ s', toggleTheme s = .ok s' ∧
          s'.localStorage.getItem THEME_KEY = .ok (some "light") ∧
          s'.dataTheme = some "light") ∧
      (∀ e, s.localStorage.setItem THEME_KEY
            (if s.dataTheme = some "dark" then "light" else "dark") = .error e →
        toggleTheme s = .error e ∧ step .toggle s = s ∧
          (step .toggle s).localStorage.getItem THEME_KEY = .ok none) := by
  refine ⟨?_, ?_, ?_⟩
  · intro ha hw
    obtain ⟨ls, hw⟩ := hw
    have hn : (if s.dataTheme = some "dark" then "light" else "dark") = "dark" := by
      rcases ha with ha | ha <;> simp [ha]
    obtain ⟨s', h1, _, h2, h3, _⟩ := toggleTheme_next s "dark" ls hn hw
    exact ⟨s', h1, h2, h3⟩
  · intro ha hw
    obtain ⟨ls, hw⟩ := hw
    have hn : (if s.dataTheme = some "dark" then "light" else "dark") = "light" := by
      simp [ha]
    obtain ⟨s', h1, _, h2, h3, _⟩ := toggleTheme_next s "light" ls hn hw
    exact ⟨s', h1, h2, h3⟩
  · intro e he
    have hr := toggleTheme_raises s e he
    have hstep : step .toggle s = s := by simp [step, hr]
    exact ⟨hr, hstep, by rw [hstep]; exact hs⟩

theorem toggleTheme_sets_override_witness :
    (((⟨⟨true, 64, []⟩, true, none, some "x"⟩ : State).dataTheme = none ∨
          (⟨⟨true, 64, []⟩, true, none, some "x"⟩ : State).dataTheme = some "light") →
        (∃ ls, (⟨true, 64, []⟩ : LocalStorage).setItem THEME_KEY "dark" = .ok ls) →
        ∃ s', toggleTheme ⟨⟨true, 64, []⟩, true, none, some "x"⟩ = .ok s' ∧
          s'.localStorage.getItem THEME_KEY = .ok (some "dark") ∧
          s'.dataTheme = some "dark") ∧
      (∃ s', toggleTheme ⟨⟨true, 64, []⟩, true, none, some "x"⟩ = .ok s' ∧
          s'.localStorage.getItem THEME_KEY = .ok (some "dark") ∧
          s'.dataTheme = some "dark") :=
  ⟨(toggleTheme_sets_override ⟨⟨true, 64, []⟩, true, none, some "x"⟩ (by decide)).1,
    (toggleTheme_sets_override ⟨⟨true, 64, []⟩, true, none, some "x"⟩ (by decide)).1
      (Or.inl rfl) ⟨_, rfl⟩⟩

/-- C4, as stated, fails: with room in the store for `'dark'` but not for `'light'` under
the key, from applied `'light'` the first `toggleTheme` call stores and applies `'dark'`, the
second raises, and after the two calls the applied state and the stored preference are
`'dark'`, not `'light'`. -/
theorem toggle_twice_second_raises :
    toggleTheme ⟨⟨true, 21, []⟩, false, some "light", none⟩
        = .ok ⟨⟨true, 21, [("outline-pdf-theme", "dark")]⟩, false, some "dark", none⟩ ∧
      toggleTheme ⟨⟨true, 21, [("outline-pdf-theme", "dark")]⟩, false, some "dark", none⟩
        = .error .quotaExceededError ∧
      (run [.toggle, .toggle] ⟨⟨true, 21, []⟩, false, some "light", none⟩).dataTheme
        = some "dark" ∧
      (run [.toggle, .toggle]
          ⟨⟨true, 21, []⟩, false, some "light", none⟩).localStorage.getItem THEME_KEY
        = .ok (some "dark") := by
  decide

/-- C4, amended. Toggle pairing when both writes are accepted: from a state whose applied
state `a` is `'dark'` or `'light'` (an unset root attribute counting as `'light'`), with any
stored preference and any icon state, if the store accepts `'dark'` and accepts `'light'`
under the key, two `toggleTheme` calls return a state whose applied state is `a` and whose
stored preference is `a`. -/
theorem toggleTheme_twice (s : State) (a : String)
    (ha : a = "dark" ∨ a = "light")
    (hcur : s.dataTheme = some a ∨ (s.dataTheme = none ∧ a = "light"))
    (hd : ∃ ls, s.localStorage.setItem THEME_KEY "dark" = .ok ls)
    (hl : ∃ ls, s.localStorage.setItem THEME_KEY "light" = .ok ls) :
    ∃ s1 s2, toggleTheme s = .ok s1 ∧ toggleTheme s1 = .ok s2 ∧
      s2.dataTheme = some a ∧ s2.localStorage.getItem THEME_KEY = .ok (some a) := by
  obtain ⟨lsd, hd⟩ := hd
  obtain ⟨lsl, hl⟩ := hl
  rcases ha with rfl | rfl
  · have hcur' : s.dataTheme = some "dark" := by
      rcases hcur with h | ⟨_, h⟩
      · exact h
      · exact absurd h (by decide)
    obtain ⟨s1, h1, hls1, _, hd1, _⟩ := toggleTheme_next s "light" lsl (by simp [hcur']) hl
    have hw2 : s1.localStorage.setItem THEME_KEY "dark" = .ok lsd := by
      rw [hls1, (setItem_ok hl).2.2]
      exact setItem_after_store "light" hd
    obtain ⟨s2, h2, _, hst2, hd2, _⟩ := toggleTheme_next s1 "dark" lsd (by simp [hd1]) hw2
    exact ⟨s1, s2, h1, h2, hd2, hst2⟩
  · have hn : (if s.dataTheme = some "dark" then "light" else "dark") = "dark" := by
      rcases hcur with h | ⟨h, _⟩ <;> simp [h]
    obtain ⟨s1, h1, hls1, _, hd1, _⟩ := toggleTheme_next s "dark" lsd hn hd
    have hw2 : s1.localStorage.setItem THEME_KEY "light" = .ok lsl := by
      rw [hls1, (setItem_ok hd).2.2]
      exact setItem_after_store "dark" hl
    obtain ⟨s2, h2, _, hst2, hd2, _⟩ := toggleTheme_next s1 "light" lsl (by simp [hd1]) hw2
    exact ⟨s1, s2, h1, h2, hd2, hst2⟩

theorem toggleTheme_twice_witness :
    ∃ s1 s2, toggleTheme ⟨⟨true, 64, [("outline-pdf-theme", "light")]⟩, false, some "dark",
        some "bi bi-sun-fill"⟩ = .ok s1 ∧ toggleTheme s1 = .ok s2 ∧
      s2.dataTheme = some "dark" ∧ s2.localStorage.getItem THEME_KEY = .ok (some "dark") :=
  toggleTheme_twice ⟨⟨true, 64, [("outline-pdf-theme", "light")]⟩, false, some "dark",
    some "bi bi-sun-fill"⟩ "dark" (Or.inl rfl) (Or.inl rfl) ⟨_, rfl⟩ ⟨_, rfl⟩

/-! ## System-preference change -/

/-- C5. System change respects the override: when a preference (`'dark'` or `'light'`) is
stored, the change listener returns the state it was given for every notified value, so the
root attribute is unchanged; in particular with `'dark'` stored a notification reporting
light does not change the applied state. -/
theorem changeListener_respects_override (s : State) (p : String)
    (hp : p = "dark" ∨ p = "light")
    (hs : s.localStorage.getItem THEME_KEY = .ok (some p)) (v : Bool) :
    changeListener v s = .ok s ∧
      ∃ s', systemChange v s = .ok s' ∧ s'.dataTheme = s.dataTheme := by
  have h1 : ∀ t : State, t.localStorage = s.localStorage → changeListener v t = .ok t := by
    intro t ht
    rcases hp with rfl | rfl <;> simp [changeListener, ht, hs, truthy]
  exact ⟨h1 s rfl, _, h1 _ rfl, rfl⟩

theorem changeListener_respects_override_witness :
    changeListener false
        ⟨⟨true, 64, [("outline-pdf-theme", "dark")]⟩, true, some "dark", none⟩
        = .ok ⟨⟨true, 64, [("outline-pdf-theme", "dark")]⟩, true, some "dark", none⟩ ∧
      ∃ s', systemChange false
          ⟨⟨true, 64, [("outline-pdf-theme", "dark")]⟩, true, some "dark", none⟩ = .ok s' ∧
        s'.dataTheme =
          (⟨⟨true, 64, [("outline-pdf-theme", "dark")]⟩, true, some "dark",
            none⟩ : State).dataTheme :=
  changeListener_respects_override
    ⟨⟨true, 64, [("outline-pdf-theme", "dark")]⟩, true, some "dark", none⟩ "dark" (Or.inl rfl)
    (by decide) false

/-- C6. System change applies without override: when nothing is stored under the key, for
every notified value `v` the change listener returns a state whose applied state is `v`
(`'dark'` if the event matches, `'light'` otherwise), whatever it was before. -/
theorem changeListener_applies (s : State)
    (hs : s.localStorage.getItem THEME_KEY = .ok none) (v : Bool) :
    (∃ s', changeListener v s = .ok s' ∧
        s'.dataTheme = some (if v then "dark" else "light")) ∧
      (∃ s', systemChange v s = .ok s' ∧
        s'.dataTheme = some (if v then "dark" else "light")) := by
  have h1 : ∀ t : State, t.localStorage = s.localStorage →
      changeListener v t = .ok (applyTheme (if v then "dark" else "light") t) := by
    intro t ht
    simp [changeListener, ht, hs, truthy]
  exact ⟨⟨_, h1 s rfl, rfl⟩, ⟨_, h1 _ rfl, rfl⟩⟩

theorem changeListener_applies_witness :
    (∃ s', changeListener false ⟨⟨true, 64, []⟩, true, some "dark", none⟩ = .ok s' ∧
        s'.dataTheme = some (if false then "dark" else "light")) ∧
      (∃ s', systemChange false ⟨⟨true, 64, []⟩, true, some "dark", none⟩ = .ok s' ∧
        s'.dataTheme = some (if false then "dark" else "light")) :=
  changeListener_applies ⟨⟨true, 64, []⟩, true, some "dark", none⟩ (by decide) false

/-! ## Invariants over the page lifetime -/

theorem applyTheme_iconSynced (t : String) (s : State) : IconSynced (applyTheme t s) := by
  intro c hc
  refine ⟨t, rfl, ?_⟩
  cases hi : s.themeIcon with
  | none => simp [applyTheme, hi] at hc
  | some c0 =>
    simp only [applyTheme, hi, Option.some.injEq] at hc
    exact hc.symm

/-- With accessible storage `getPreferredTheme` returns a string. -/
theorem getPreferredTheme_returns (s : State) (h : s.localStorage.accessible = true) :
    ∃ t, getPreferredTheme s = .ok t := by
  simp only [getPreferredTheme, LocalStorage.getItem, h, if_true]
  cases lookupItem THEME_KEY s.localStorage.items with
  | none => exact ⟨_, rfl⟩
  | some v =>
    by_cases hv : truthy (some v) = true
    · exact ⟨v, by simp [hv]⟩
    · exact ⟨getSystemTheme s, by simp [hv]⟩

/-- With accessible storage script evaluation returns a state, with storage as it was. -/
theorem startup_returns (s : State) (h : s.localStorage.accessible = true) :
    ∃ s', startup s = .ok s' ∧ s'.localStorage = s.localStorage := by
  obtain ⟨t, ht⟩ := getPreferredTheme_returns s h
  exact ⟨applyTheme t s, by simp [startup, ht], rfl⟩

/-- Script evaluation that returns has applied a theme to the state it was given. -/
theorem startup_ok_inv (s0 s : State) (h : startup s0 = .ok s) :
    ∃ t, getPreferredTheme s0 = .ok t ∧ s = applyTheme t s0 := by
  unfold startup at h
  cases ht : getPreferredTheme s0 with
  | error e => simp [ht] at h
  | ok t =>
    simp only [ht, Except.ok.injEq] at h
    exact ⟨t, rfl, h.symm⟩

/-- Evaluating the script yields a coherent state with the same system preference. -/
theorem startup_coherent (s0 s : State) (h : startup s0 = .ok s) :
    Coherent s ∧ s.prefersDark = s0.prefersDark := by
  unfold startup getPreferredTheme LocalStorage.getItem at h
  by_cases hacc : s0.localStorage.accessible = true
  · simp only [hacc, if_true] at h
    cases hl : lookupItem THEME_KEY s0.localStorage.items with
    | none =>
      simp only [hl, Except.ok.injEq] at h
      subst h
      refine ⟨⟨hacc, ?_, ?_⟩, rfl⟩
      · intro p hp
        simp [applyTheme, hl] at hp
      · intro _
        rfl
    | some v =>
      simp only [hl] at h
      by_cases hv : v = ""
      · have htv : truthy (some v) = false := by simp [truthy, hv]
        simp only [htv, Bool.false_eq_true, if_false, Except.ok.injEq] at h
        subst h
        refine ⟨⟨hacc, ?_, ?_⟩, rfl⟩
        · intro p hp hne
          simp only [applyTheme, hl, Option.some.injEq] at hp
          exact absurd (hp ▸ hv) hne
        · intro _
          rfl
      · have htv : truthy (some v) = true := (truthy_some_iff v).2 hv
        simp only [htv, if_true, Except.ok.injEq] at h
        subst h
        refine ⟨⟨hacc, ?_, ?_⟩, rfl⟩
        · intro p hp _
          simp only [applyTheme, hl, Option.some.injEq] at hp
          simp [applyTheme, hp]
        · intro hf
          simp only [applyTheme, hl] at hf
          rw [htv] at hf
          exact absurd hf (by decide)
  · simp [hacc] at h

/-- A `toggleTheme` call that returns keeps the state coherent, leaves the icon with the
class for the new root attribute, and does not touch the system preference. -/
theorem toggleTheme_coherent (s s' : State) (h : toggleTheme s = .ok s') :
    Coherent s' ∧ IconSynced s' ∧ s'.prefersDark = s.prefersDark := by
  obtain ⟨ls, hw⟩ := toggleTheme_ok_inv s s' h
  obtain ⟨t, ht, _, hst, hd, hp, hi⟩ := toggleTheme_next s _ ls rfl hw
  rw [h] at ht
  simp only [Except.ok.injEq] at ht
  subst ht
  obtain ⟨hacc', hlook⟩ := accessible_of_getItem hst
  have hne : (if s.dataTheme = some "dark" then "light" else "dark") ≠ "" := by
    split <;> decide
  refine ⟨⟨hacc', ?_, ?_⟩, ?_, hp⟩
  · intro p hp' _
    rw [hlook] at hp'
    rw [hd]
    exact hp'
  · intro hf
    rw [hlook, (truthy_some_iff _).2 hne] at hf
    exact absurd hf (by decide)
  · intro c hc'
    rw [hi] at hc'
    refine ⟨_, hd, ?_⟩
    cases hic : s.themeIcon with
    | none => simp [hic] at hc'
    | some c0 =>
      simp only [hic, Option.map_some', Option.some.injEq] at hc'
      exact hc'.symm

/-- What the change listener does on accessible storage. -/
theorem systemChange_accessible (v : Bool) (s : State)
    (hacc : s.localStorage.accessible = true) :
    systemChange v s =
      if truthy (lookupItem THEME_KEY s.localStorage.items) = true then
        .ok { s with prefersDark := v }
      else .ok (applyTheme (if v then "dark" else "light") { s with prefersDark := v }) := by
  by_cases ht : truthy (lookupItem THEME_KEY s.localStorage.items) = true
  · simp [systemChange, changeListener, LocalStorage.getItem, hacc, ht]
  · simp [systemChange, changeListener, LocalStorage.getItem, hacc, ht]

/-- A system-preference change keeps the state coherent and records the reported value. -/
theorem systemChange_coherent (v : Bool) (s : State) (hc : Coherent s) :
    Coherent (step (.system v) s) ∧ (step (.system v) s).prefersDark = v := by
  obtain ⟨hacc, h1, h2⟩ := hc
  by_cases ht : truthy (lookupItem THEME_KEY s.localStorage.items) = true
  · have hstep : step (.system v) s = { s with prefersDark := v } := by
      simp only [step, systemChange_accessible v s hacc, ht, if_true]
    rw [hstep]
    refine ⟨⟨hacc, h1, ?_⟩, rfl⟩
    intro hf
    simp only at hf
    rw [ht] at hf
    exact absurd hf (by decide)
  · have hf : truthy (lookupItem THEME_KEY s.localStorage.items) = false := by
      simpa using ht
    have hstep : step (.system v) s =
        applyTheme (if v then "dark" else "light") { s with prefersDark := v } := by
      simp only [step, systemChange_accessible v s hacc, hf, Bool.false_eq_true, if_false]
    rw [hstep]
    refine ⟨⟨hacc, ?_, ?_⟩, rfl⟩
    · intro p hp hne
      have hp' : lookupItem THEME_KEY s.localStorage.items = some p := hp
      rw [hp', (truthy_some_iff p).2 hne] at hf
      exact absurd hf (by decide)
    · intro _
      rfl

/-- Every event keeps the state coherent, and the system preference of the state is the
one most recently reported. -/
theorem step_coherent (e : Event) (s : State) (hc : Coherent s) :
    Coherent (step e s) ∧ (step e s).prefersDark = lastReported s.prefersDark [e] := by
  cases e with
  | toggle =>
    cases ht : toggleTheme s with
    | error x =>
      simp only [step, ht]
      exact ⟨hc, rfl⟩
    | ok s1 =>
      simp only [step, ht]
      obtain ⟨hc1, _, hp1⟩ := toggleTheme_coherent s s1 ht
      exact ⟨hc1, hp1⟩
  | system v => exact systemChange_coherent v s hc
  | document icon => exact ⟨hc, rfl⟩

theorem lastReported_cons (b : Bool) (e : Event) (es : List Event) :
    lastReported b (e :: es) = lastReported (lastReported b [e]) es := by
  cases e <;> rfl

/-- Coherence is kept by every sequence of events, and the state's system preference is the
one most recently reported. -/
theorem run_coherent (es : List Event) : ∀ (s : State), Coherent s →
    Coherent (run es s) ∧ (run es s).prefersDark = lastReported s.prefersDark es := by
  induction es with
  | nil => exact fun s hc => ⟨hc, rfl⟩
  | cons e es ih =>
    intro s hc
    obtain ⟨hc1, hp1⟩ := step_coherent e s hc
    obtain ⟨hc2, hp2⟩ := ih (step e s) hc1
    exact ⟨hc2, by rw [lastReported_cons, ← hp1]; exact hp2⟩

/-- A page lifetime is script evaluation that returned, followed by the events. -/
theorem pageLife_ok_inv (es : List Event) (s0 s : State) (h : pageLife es s0 = .ok s) :
    ∃ st, startup s0 = .ok st ∧ s = run es st := by
  unfold pageLife at h
  cases hst : startup s0 with
  | error x => simp [hst] at h
  | ok st =>
    simp only [hst, Except.ok.injEq] at h
    exact ⟨st, rfl, h.symm⟩

/-- Every state of a page lifetime is coherent. -/
theorem pageLife_coherent (es : List Event) (s0 s : State) (h : pageLife es s0 = .ok s) :
    Coherent s ∧ s.prefersDark = lastReported s0.prefersDark es := by
  obtain ⟨st, hst, rfl⟩ := pageLife_ok_inv es s0 s h
  obtain ⟨hc1, hp1⟩ := startup_coherent s0 st hst
  obtain ⟨hc2, hp2⟩ := run_coherent es st hc1
  exact ⟨hc2, by rw [hp2, hp1]⟩

/-- With accessible storage the script returns, and so there is a state after every
sequence of events. -/
theorem pageLife_returns (es : List Event) (s0 : State)
    (h : s0.localStorage.accessible = true) : ∃ s, pageLife es s0 = .ok s := by
  obtain ⟨s1, h1, _⟩ := startup_returns s0 h
  exact ⟨run es s1, by simp only [pageLife, h1]⟩

/-- Every event other than a change of the document keeps the icon class in step with the
root attribute. -/
theorem step_iconSynced (e : Event) (s : State) (hne : ∀ icon, e ≠ .document icon)
    (hi : IconSynced s) : IconSynced (step e s) := by
  cases e with
  | toggle =>
    cases ht : toggleTheme s with
    | error x =>
      simp only [step, ht]
      exact hi
    | ok s1 =>
      simp only [step, ht]
      exact (toggleTheme_coherent s s1 ht).2.1
  | system v =>
    cases hs : systemChange v s with
    | error x =>
      simp only [step, hs]
      exact hi
    | ok s1 =>
      simp only [step, hs]
      unfold systemChange changeListener at hs
      cases hg : ({ s with prefersDark := v } : State).localStorage.getItem THEME_KEY with
      | error x => simp [hg] at hs
      | ok stored =>
        simp only [hg] at hs
        by_cases ht : truthy stored = true
        · simp only [ht, Bool.not_true, Bool.false_eq_true, if_false, Except.ok.injEq] at hs
          subst hs
          exact hi
        · have hf : truthy stored = false := by simpa using ht
          simp only [hf, Bool.not_false, if_true, Except.ok.injEq] at hs
          subst hs
          exact applyTheme_iconSynced _ _
  | document icon => exact absurd rfl (hne icon)

theorem run_iconSynced (es : List Event) : ∀ (s : State),
    (∀ icon, Event.document icon ∉ es) → IconSynced s → IconSynced (run es s) := by
  induction es with
  | nil => exact fun s _ hi => hi
  | cons e es ih =>
    intro s hdom hi
    refine ih (step e s) (fun icon hmem => hdom icon (List.mem_cons_of_mem _ hmem)) ?_
    refine step_iconSynced e s (fun icon he => hdom icon ?_) hi
    rw [he]
    exact List.mem_cons_self _ _

theorem run_append (es1 es2 : List Event) : ∀ (s : State),
    run (es1 ++ es2) s = run es2 (run es1 s) := by
  induction es1 with
  | nil => exact fun s => rfl
  | cons e es ih => exact fun s => ih (step e s)

/-- C7. Resolution invariant: in every state reached from script evaluation by any sequence
of `toggleTheme` calls and system-change notifications, the applied state is the stored
preference when one is present (a non-empty string under the key, which is how the script
tests for it), and otherwise is the system preference most recently reported. -/
theorem resolution_invariant (s0 s : State) (es : List Event)
    (h : pageLife es s0 = .ok s) :
    (∀ p, s.localStorage.getItem THEME_KEY = .ok (some p) → p ≠ "" →
        s.dataTheme = some p) ∧
      ((s.localStorage.getItem THEME_KEY = .ok none ∨
          s.localStorage.getItem THEME_KEY = .ok (some "")) →
        s.dataTheme = some (if lastReported s0.prefersDark es then "dark" else "light")) := by
  obtain ⟨⟨_, h1, h2⟩, hp⟩ := pageLife_coherent es s0 s h
  constructor
  · intro p hg hne
    exact h1 p (accessible_of_getItem hg).2 hne
  · intro hg
    have hf : truthy (lookupItem THEME_KEY s.localStorage.items) = false := by
      rcases hg with hg | hg <;> rw [(accessible_of_getItem hg).2] <;> rfl
    rw [h2 hf, getSystemTheme, hp]

theorem resolution_invariant_witness :
    (∀ p, (⟨⟨true, 64, []⟩, false, some "light",
            some "bi bi-moon-fill"⟩ : State).localStorage.getItem
          THEME_KEY = .ok (some p) → p ≠ "" →
        (⟨⟨true, 64, []⟩, false, some "light", some "bi bi-moon-fill"⟩ : State).dataTheme
          = some p) ∧
      (((⟨⟨true, 64, []⟩, false, some "light",
            some "bi bi-moon-fill"⟩ : State).localStorage.getItem
            THEME_KEY = .ok none ∨
          (⟨⟨true, 64, []⟩, false, some "light",
            some "bi bi-moon-fill"⟩ : State).localStorage.getItem
            THEME_KEY = .ok (some "")) →
        (⟨⟨true, 64, []⟩, false, some "light", some "bi bi-moon-fill"⟩ : State).dataTheme =
          some (if lastReported true [Event.system false] then "dark" else "light")) :=
  resolution_invariant ⟨⟨true, 64, []⟩, true, none, some "x"⟩
    ⟨⟨true, 64, []⟩, false, some "light", some "bi bi-moon-fill"⟩ [Event.system false]
    (by decide)

/-- C8. The override is never cleared: when a value is stored under the key, each operation
(script evaluation, `applyTheme`, `toggleTheme`, the change listener) leaves a value stored
under it. Script evaluation, `applyTheme` and the listener return with storage as it was.
After a `toggleTheme` call, whether it returned or raised, a value is stored under the key
and every key that was stored still is; a call that returns (as it does when its write is
accepted) has stored `'dark'` or `'light'`; a call that raises has changed nothing. -/
theorem override_never_cleared (s : State) (p : String)
    (hs : s.localStorage.getItem THEME_KEY = .ok (some p)) :
    (∃ s', startup s = .ok s' ∧ s'.localStorage = s.localStorage) ∧
      (∀ t, (applyTheme t s).localStorage = s.localStorage) ∧
      ((∃ q, (step .toggle s).localStorage.getItem THEME_KEY = .ok (some q)) ∧
        ∀ k, (lookupItem k s.localStorage.items).isSome = true →
          (lookupItem k (step .toggle s).localStorage.items).isSome = true) ∧
      (∀ s', toggleTheme s = .ok s' → step .toggle s = s' ∧
        ∃ q, s'.localStorage.getItem THEME_KEY = .ok (some q) ∧ (q = "dark" ∨ q = "light")) ∧
      ((∃ ls, s.localStorage.setItem THEME_KEY
            (if s.dataTheme = some "dark" then "light" else "dark") = .ok ls) →
        ∃ s', toggleTheme s = .ok s') ∧
      (∀ e, toggleTheme s = .error e → step .toggle s = s) ∧
      (∀ v, ∃ s', changeListener v s = .ok s' ∧ s'.localStorage = s.localStorage) ∧
      (∀ v, ∃ s', systemChange v s = .ok s' ∧ s'.localStorage = s.localStorage) := by
  obtain ⟨hacc, hl⟩ := accessible_of_getItem hs
  have hcl : ∀ (v : Bool) (t : State), t.localStorage = s.localStorage →
      ∃ s', changeListener v t = .ok s' ∧ s'.localStorage = s.localStorage := by
    intro v t ht
    simp only [changeListener, ht, hs]
    split
    · exact ⟨_, rfl, ht⟩
    · exact ⟨_, rfl, ht⟩
  have hret : ∀ s', toggleTheme s = .ok s' →
      (∃ q, s'.localStorage.getItem THEME_KEY = .ok (some q) ∧ (q = "dark" ∨ q = "light")) ∧
        ∀ k, (lookupItem k s.localStorage.items).isSome = true →
          (lookupItem k s'.localStorage.items).isSome = true := by
    intro s' ht
    obtain ⟨ls, hw⟩ := toggleTheme_ok_inv s s' ht
    obtain ⟨t, ht', hls, hst, _⟩ := toggleTheme_next s _ ls rfl hw
    rw [ht] at ht'
    simp only [Except.ok.injEq] at ht'
    subst ht'
    refine ⟨⟨_, hst, ?_⟩, ?_⟩
    · split
      · exact Or.inr rfl
      · exact Or.inl rfl
    · intro k hk
      rw [hls, (setItem_ok hw).2.2]
      exact lookupItem_storeItem_isSome _ _ k _ hk
  refine ⟨startup_returns s hacc, fun _ => rfl, ?_, ?_, ?_, ?_,
    fun v => hcl v s rfl, fun v => hcl v _ rfl⟩
  · cases ht : toggleTheme s with
    | error e =>
      simp only [step, ht]
      exact ⟨⟨p, hs⟩, fun _ hk => hk⟩
    | ok s' =>
      simp only [step, ht]
      obtain ⟨⟨q, hq, _⟩, hkeys⟩ := hret s' ht
      exact ⟨⟨q, hq⟩, hkeys⟩
  · intro s' ht
    exact ⟨by simp only [step, ht], (hret s' ht).1⟩
  · rintro ⟨ls, hw⟩
    obtain ⟨s', h1, _⟩ := toggleTheme_next s _ ls rfl hw
    exact ⟨s', h1⟩
  · intro e he
    simp only [step, he]

theorem override_never_cleared_witness :
    (∃ s', startup ⟨⟨true, 64, [("outline-pdf-theme", "dark")]⟩, false, none, none⟩ = .ok s' ∧
        s'.localStorage = ⟨true, 64, [("outline-pdf-theme", "dark")]⟩) ∧
      (∃ s', toggleTheme ⟨⟨true, 64, [("outline-pdf-theme", "dark")]⟩, false, none, none⟩
        = .ok s') :=
  ⟨(override_never_cleared ⟨⟨true, 64, [("outline-pdf-theme", "dark")]⟩, false, none, none⟩
      "dark" (by decide)).1,
    (override_never_cleared ⟨⟨true, 64, [("outline-pdf-theme", "dark")]⟩, false, none, none⟩
      "dark" (by decide)).2.2.2.2.1 ⟨_, rfl⟩⟩

/-- C9, as stated, fails. The script is evaluated before the document is loaded, so the icon
element is not there when `applyTheme` first runs. With a dark system preference and the icon
entering the document with the class `'bi bi-moon-fill'`, the applied state is `'dark'` and
the icon class is not `'bi bi-sun-fill'`; with `'dark'` stored it stays so through a
system-change notification. -/
theorem icon_stale_after_document_load :
    pageLife [.document (some "bi bi-moon-fill")] ⟨⟨true, 64, []⟩, true, none, none⟩
        = .ok ⟨⟨true, 64, []⟩, true, some "dark", some "bi bi-moon-fill"⟩ ∧
      pageLife [.document (some "bi bi-moon-fill"), .system true]
          ⟨⟨true, 64, [("outline-pdf-theme", "dark")]⟩, false, none, none⟩
        = .ok ⟨⟨true, 64, [("outline-pdf-theme", "dark")]⟩, true, some "dark",
            some "bi bi-moon-fill"⟩ := by
  decide

/-- C9, amended. Icon invariant between changes of the document: take a state reached from
script evaluation by `toggleTheme` calls, system-change notifications and changes of the
document, such that `applyTheme` has run (at script evaluation, in a `toggleTheme` call that
returned, or in the change listener when nothing truthy was stored) and the document has not
changed since. If the element `themeIcon` is present in that state, its class is
`'bi bi-sun-fill'` when the applied state is `'dark'` and `'bi bi-moon-fill'` when it is
`'light'`. -/
theorem icon_invariant (s0 s : State) (es1 es2 : List Event)
    (h : pageLife (es1 ++ es2) s0 = .ok s)
    (hdoc : ∀ icon, Event.document icon ∉ es2)
    (happlied : es1 = [] ∨
      (∃ es0 s1 s2, es1 = es0 ++ [.toggle] ∧ pageLife es0 s0 = .ok s1 ∧
        toggleTheme s1 = .ok s2) ∨
      (∃ es0 v s1, es1 = es0 ++ [.system v] ∧ pageLife es0 s0 = .ok s1 ∧
        (s1.localStorage.getItem THEME_KEY = .ok none ∨
          s1.localStorage.getItem THEME_KEY = .ok (some ""))))
    (c : String) (hc : s.themeIcon = some c) :
    (s.dataTheme = some "dark" → c = "bi bi-sun-fill") ∧
      (s.dataTheme = some "light" → c = "bi bi-moon-fill") := by
  obtain ⟨st, hst, hs⟩ := pageLife_ok_inv _ s0 s h
  rw [run_append] at hs
  have hsync1 : IconSynced (run es1 st) := by
    rcases happlied with rfl | ⟨es0, s1, s2, rfl, h0, ht⟩ | ⟨es0, v, s1, rfl, h0, hg⟩
    · obtain ⟨t, _, rfl⟩ := startup_ok_inv s0 st hst
      exact applyTheme_iconSynced t s0
    · obtain ⟨st', hst', hs1⟩ := pageLife_ok_inv es0 s0 s1 h0
      rw [hst] at hst'
      rw [← Except.ok.inj hst'] at hs1
      rw [run_append, ← hs1]
      simp only [run, step, ht]
      exact (toggleTheme_coherent s1 s2 ht).2.1
    · obtain ⟨st', hst', hs1⟩ := pageLife_ok_inv es0 s0 s1 h0
      rw [hst] at hst'
      rw [← Except.ok.inj hst'] at hs1
      rw [run_append, ← hs1]
      obtain ⟨hacc, hlook⟩ : s1.localStorage.accessible = true ∧
          truthy (lookupItem THEME_KEY s1.localStorage.items) = false := by
        rcases hg with hg | hg
        · exact ⟨(accessible_of_getItem hg).1, by rw [(accessible_of_getItem hg).2]; rfl⟩
        · exact ⟨(accessible_of_getItem hg).1, by rw [(accessible_of_getItem hg).2]; rfl⟩
      simp only [run, step, systemChange_accessible v s1 hacc, hlook, Bool.false_eq_true,
        if_false]
      exact applyTheme_iconSynced _ _
  have hsync : IconSynced s := by
    rw [hs]
    exact run_iconSynced es2 _ hdoc hsync1
  obtain ⟨t, ht, hct⟩ := hsync c hc
  constructor
  · intro hd
    rw [ht, Option.some.injEq] at hd
    subst hd
    exact hct
  · intro hl
    rw [ht, Option.some.injEq] at hl
    subst hl
    exact hct

theorem icon_invariant_witness :
    ((⟨⟨true, 64, [("outline-pdf-theme", "dark")]⟩, true, some "dark",
          some "bi bi-sun-fill"⟩ : State).dataTheme = some "dark" →
        "bi bi-sun-fill" = "bi bi-sun-fill") ∧
      ((⟨⟨true, 64, [("outline-pdf-theme", "dark")]⟩, true, some "dark",
          some "bi bi-sun-fill"⟩ : State).dataTheme = some "light" →
        "bi bi-sun-fill" = "bi bi-moon-fill") :=
  icon_invariant ⟨⟨true, 64, []⟩, false, none, none⟩
    ⟨⟨true, 64, [("outline-pdf-theme", "dark")]⟩, true, some "dark", some "bi bi-sun-fill"⟩
    [Event.document (some "bi bi-moon-fill"), Event.toggle] [Event.system true]
    (by decide) (by simp)
    (Or.inr (Or.inl ⟨[Event.document (some "bi bi-moon-fill")],
      ⟨⟨true, 64, []⟩, false, some "light", some "bi bi-moon-fill"⟩,
      ⟨⟨true, 64, [("outline-pdf-theme", "dark")]⟩, false, some "dark",
        some "bi bi-sun-fill"⟩, rfl, by decide, by decide⟩))
    "bi bi-sun-fill" rfl

/-! ## The range of `getPreferredTheme` -/

/-- C10, as stated, fails: with `'blue'` stored under the key `getPreferredTheme` returns
`'blue'`, which is neither `'dark'` nor `'light'`, and script evaluation applies it. -/
theorem stored_blue_is_returned :
    getPreferredTheme ⟨⟨true, 64, [("outline-pdf-theme", "blue")]⟩, true, none, none⟩
        = .ok "blue" ∧
      ¬ (getPreferredTheme ⟨⟨true, 64, [("outline-pdf-theme", "blue")]⟩, true, none, none⟩
            = .ok "dark" ∨
          getPreferredTheme ⟨⟨true, 64, [("outline-pdf-theme", "blue")]⟩, true, none, none⟩
            = .ok "light") ∧
      startup ⟨⟨true, 64, [("outline-pdf-theme", "blue")]⟩, true, none, none⟩
        = .ok ⟨⟨true, 64, [("outline-pdf-theme", "blue")]⟩, true, some "blue", none⟩ := by
  decide

/-- C10, amended. For every system preference, `getPreferredTheme` returns `'dark'` or
`'light'` exactly when the key is absent or holds the empty string, `'dark'` or `'light'`;
in those cases the applied state set by script evaluation is `'dark'` or `'light'`. Any
other stored string is returned, and applied by script evaluation, as it is. -/
theorem getPreferredTheme_theme_iff (s : State) (o : Option String)
    (hs : s.localStorage.getItem THEME_KEY = .ok o) :
    ((getPreferredTheme s = .ok "dark" ∨ getPreferredTheme s = .ok "light") ↔
        (o = none ∨ o = some "" ∨ o = some "dark" ∨ o = some "light")) ∧
      ((o = none ∨ o = some "" ∨ o = some "dark" ∨ o = some "light") →
        ∃ s', startup s = .ok s' ∧
          (s'.dataTheme = some "dark" ∨ s'.dataTheme = some "light")) ∧
      (∀ v, o = some v → v ≠ "" →
        getPreferredTheme s = .ok v ∧ ∃ s', startup s = .ok s' ∧ s'.dataTheme = some v) := by
  have hsys : getSystemTheme s = "dark" ∨ getSystemTheme s = "light" := by
    unfold getSystemTheme
    split
    · exact Or.inl rfl
    · exact Or.inr rfl
  have hfalsy : (o = none ∨ o = some "") → getPreferredTheme s = .ok (getSystemTheme s) := by
    rintro (rfl | rfl) <;> simp [getPreferredTheme, hs, truthy]
  have htruthy : ∀ v, o = some v → v ≠ "" → getPreferredTheme s = .ok v := by
    intro v hv hne
    subst hv
    simp [getPreferredTheme, hs, (truthy_some_iff v).2 hne]
  have hstart : ∀ t, getPreferredTheme s = .ok t →
      ∃ s', startup s = .ok s' ∧ s'.dataTheme = some t := by
    intro t ht
    exact ⟨applyTheme t s, by simp [startup, ht], rfl⟩
  have hfwd : (o = none ∨ o = some "" ∨ o = some "dark" ∨ o = some "light") →
      (getPreferredTheme s = .ok "dark" ∨ getPreferredTheme s = .ok "light") := by
    rintro (h | h | h | h)
    · rw [hfalsy (Or.inl h)]
      rcases hsys with h' | h' <;> simp [h']
    · rw [hfalsy (Or.inr h)]
      rcases hsys with h' | h' <;> simp [h']
    · exact Or.inl (htruthy _ h (by decide))
    · exact Or.inr (htruthy _ h (by decide))
  refine ⟨⟨?_, hfwd⟩, ?_, ?_⟩
  · intro hres
    cases o with
    | none => exact Or.inl rfl
    | some v =>
      by_cases hv : v = ""
      · exact Or.inr (Or.inl (by rw [hv]))
      · rw [htruthy v rfl hv] at hres
        rcases hres with h | h
        · exact Or.inr (Or.inr (Or.inl (by rw [Except.ok.inj h])))
        · exact Or.inr (Or.inr (Or.inr (by rw [Except.ok.inj h])))
  · intro ho
    rcases hfwd ho with h | h
    · obtain ⟨s', h1, h2⟩ := hstart _ h
      exact ⟨s', h1, Or.inl h2⟩
    · obtain ⟨s', h1, h2⟩ := hstart _ h
      exact ⟨s', h1, Or.inr h2⟩
  · intro v hv hne
    exact ⟨htruthy v hv hne, hstart v (htruthy v hv hne)⟩

theorem getPreferredTheme_theme_iff_witness :
    ((getPreferredTheme ⟨⟨true, 64, [("outline-pdf-theme", "")]⟩, true, none, none⟩ = .ok "dark" ∨
        getPreferredTheme ⟨⟨true, 64, [("outline-pdf-theme", "")]⟩, true, none, none⟩
          = .ok "light") ↔
        (some "" = none ∨ some "" = some "" ∨ some "" = some "dark" ∨
          some "" = some "light")) ∧
      ((some "" = none ∨ some "" = some "" ∨ some "" = some "dark" ∨ some "" = some "light") →
        ∃ s', startup ⟨⟨true, 64, [("outline-pdf-theme", "")]⟩, true, none, none⟩ = .ok s' ∧
          (s'.dataTheme = some "dark" ∨ s'.dataTheme = some "light")) ∧
      (∀ v, some "" = some v → v ≠ "" →
        getPreferredTheme ⟨⟨true, 64, [("outline-pdf-theme", "")]⟩, true, none, none⟩ = .ok v ∧
          ∃ s', startup ⟨⟨true, 64, [("outline-pdf-theme", "")]⟩, true, none, none⟩ = .ok s' ∧
            s'.dataTheme = some v) :=
  getPreferredTheme_theme_iff ⟨⟨true, 64, [("outline-pdf-theme", "")]⟩, true, none, none⟩
    (some "") (by decide)

/-! ## Storage failure -/

/-- C11, as stated, fails: when the read of the storage key raises, `getPreferredTheme`
raises too; it does not return the system theme. -/
theorem getPreferredTheme_raises_example :
    (⟨false, 64, []⟩ : LocalStorage).getItem THEME_KEY = .error .securityError ∧
      getPreferredTheme ⟨⟨false, 64, []⟩, true, none, none⟩ = .error .securityError ∧
      ¬ getPreferredTheme ⟨⟨false, 64, []⟩, true, none, none⟩
          = .ok (getSystemTheme ⟨⟨false, 64, []⟩, true, none, none⟩) := by
  decide

/-- C11, amended. When the read of the storage key raises, `getPreferredTheme` raises the
same error and returns no theme; script evaluation and the change listener raise it as well.
The system theme is what a read that succeeds without a value yields. -/
theorem getPreferredTheme_read_failure (s : State) (e : JsError)
    (hs : s.localStorage.getItem THEME_KEY = .error e) :
    getPreferredTheme s = .error e ∧ (∀ t, getPreferredTheme s ≠ .ok t) ∧
      startup s = .error e ∧ (∀ v, changeListener v s = .error e) := by
  have h1 : getPreferredTheme s = .error e := by
    simp [getPreferredTheme, hs]
  refine ⟨h1, ?_, ?_, ?_⟩
  · intro t ht
    rw [h1] at ht
    cases ht
  · simp [startup, h1]
  · intro v
    simp [changeListener, hs]

theorem getPreferredTheme_read_failure_witness :
    getPreferredTheme ⟨⟨false, 64, [("outline-pdf-theme", "dark")]⟩, false, none, none⟩
        = .error .securityError ∧
      (∀ t, getPreferredTheme ⟨⟨false, 64, [("outline-pdf-theme", "dark")]⟩, false, none, none⟩
        ≠ .ok t) ∧
      startup ⟨⟨false, 64, [("outline-pdf-theme", "dark")]⟩, false, none, none⟩
        = .error .securityError ∧
      (∀ v, changeListener v ⟨⟨false, 64, [("outline-pdf-theme", "dark")]⟩, false, none, none⟩
        = .error .securityError) :=
  getPreferredTheme_read_failure
    ⟨⟨false, 64, [("outline-pdf-theme", "dark")]⟩, false, none, none⟩ .securityError (by decide)

/-! ## `applyTheme` -/

/-- C12. The function `applyTheme` is idempotent: for every state and every theme, applying
the theme twice yields exactly the state that applying it once yields (root attribute, icon
class, storage and all). -/
theorem applyTheme_idempotent (t : String) (s : State) :
    applyTheme t (applyTheme t s) = applyTheme t s := by
  cases hi : s.themeIcon <;> simp [applyTheme, hi]

/-- C14. Frame of `applyTheme`: for every state and theme `t` it returns a state (it cannot
raise) with storage unchanged and the root attribute set to `t`; when there is no icon
element the returned state differs from the given one in the root attribute only. -/
theorem applyTheme_frame (t : String) (s : State) :
    (applyTheme t s).localStorage = s.localStorage ∧
      (applyTheme t s).dataTheme = some t ∧
      (applyTheme t s).prefersDark = s.prefersDark ∧
      applyTheme t { s with themeIcon := none } =
        { s with dataTheme := some t, themeIcon := none } := by
  exact ⟨rfl, rfl, rfl, rfl⟩

/-! ## Scenario and normalisation -/

/-- C13, as stated, fails at the toggle step: with empty storage that has no room, a dark
system preference and the icon present, script evaluation yields applied `'dark'` and icon
class `'bi bi-sun-fill'`, but the `toggleTheme` call raises, and after it the applied state
is still `'dark'` and nothing is stored. -/
theorem scenario_raises_at_toggle :
    startup ⟨⟨true, 0, []⟩, true, none, some "bi"⟩
        = .ok ⟨⟨true, 0, []⟩, true, some "dark", some "bi bi-sun-fill"⟩ ∧
      toggleTheme ⟨⟨true, 0, []⟩, true, some "dark", some "bi bi-sun-fill"⟩
        = .error .quotaExceededError ∧
      (step .toggle ⟨⟨true, 0, []⟩, true, some "dark", some "bi bi-sun-fill"⟩).dataTheme
        = some "dark" ∧
      (step .toggle
          ⟨⟨true, 0, []⟩, true, some "dark", some "bi bi-sun-fill"⟩).localStorage.getItem
        THEME_KEY = .ok none := by
  decide

/-- C13, amended. End-to-end scenario when the write is accepted: from a state with nothing
stored under the key, a dark system preference and the icon element present, script
evaluation yields applied `'dark'` and icon class `'bi bi-sun-fill'`; if the store accepts
`'light'` under the key, a `toggleTheme` call then yields applied `'light'`, stored `'light'`
and icon class `'bi bi-moon-fill'`; a following system-change notification reporting dark
leaves the applied state `'light'`. -/
theorem scenario_fresh_dark (s : State) (c : String)
    (hs : s.localStorage.getItem THEME_KEY = .ok none)
    (hd : s.prefersDark = true) (hi : s.themeIcon = some c)
    (hw : ∃ ls, s.localStorage.setItem THEME_KEY "light" = .ok ls) :
    ∃ s1 s2 s3,
      startup s = .ok s1 ∧ s1.dataTheme = some "dark" ∧
        s1.themeIcon = some "bi bi-sun-fill" ∧
      toggleTheme s1 = .ok s2 ∧ s2.dataTheme = some "light" ∧
        s2.localStorage.getItem THEME_KEY = .ok (some "light") ∧
        s2.themeIcon = some "bi bi-moon-fill" ∧
      systemChange true s2 = .ok s3 ∧ s3.dataTheme = some "light" := by
  obtain ⟨ls, hw⟩ := hw
  have hstart : startup s = .ok (applyTheme "dark" s) := by
    simp [startup, getPreferredTheme, hs, getSystemTheme, hd]
  have hicon1 : (applyTheme "dark" s).themeIcon = some "bi bi-sun-fill" := by
    simp [applyTheme, hi]
  obtain ⟨s2, h2, _, hst2, hd2, _, hi2⟩ :=
    toggleTheme_next (applyTheme "dark" s) "light" ls (by simp [applyTheme]) hw
  have hsys : systemChange true s2 = .ok { s2 with prefersDark := true } := by
    have hg : ({ s2 with prefersDark := true } : State).localStorage.getItem THEME_KEY
        = .ok (some "light") := hst2
    simp [systemChange, changeListener, hg, truthy]
  refine ⟨_, s2, _, hstart, rfl, hicon1, h2, hd2, hst2, ?_, hsys, hd2⟩
  rw [hi2, hicon1]
  simp

theorem scenario_fresh_dark_witness :
    ∃ s1 s2 s3,
      startup ⟨⟨true, 64, []⟩, true, none, some "bi"⟩ = .ok s1 ∧ s1.dataTheme = some "dark" ∧
        s1.themeIcon = some "bi bi-sun-fill" ∧
      toggleTheme s1 = .ok s2 ∧ s2.dataTheme = some "light" ∧
        s2.localStorage.getItem THEME_KEY = .ok (some "light") ∧
        s2.themeIcon = some "bi bi-moon-fill" ∧
      systemChange true s2 = .ok s3 ∧ s3.dataTheme = some "light" :=
  scenario_fresh_dark ⟨⟨true, 64, []⟩, true, none, some "bi"⟩ "bi" (by decide) rfl rfl
    ⟨_, rfl⟩

/-- C15, as stated, fails: on a store that can be read but is full, with the root attribute
`'light'`, the write of `toggleTheme` raises; after the call the applied state is still
`'light'`, not `'dark'`, and no preference is stored. -/
theorem toggle_raises_on_full_store :
    (⟨⟨true, 8, [("k", "1234567")]⟩, false, some "light",
          some "bi bi-moon-fill"⟩ : State).localStorage.getItem "k" = .ok (some "1234567") ∧
      toggleTheme ⟨⟨true, 8, [("k", "1234567")]⟩, false, some "light", some "bi bi-moon-fill"⟩
        = .error .quotaExceededError ∧
      (step .toggle ⟨⟨true, 8, [("k", "1234567")]⟩, false, some "light",
          some "bi bi-moon-fill"⟩).dataTheme = some "light" ∧
      (step .toggle ⟨⟨true, 8, [("k", "1234567")]⟩, false, some "light",
          some "bi bi-moon-fill"⟩).localStorage.getItem THEME_KEY = .ok none := by
  decide

/-- C15, amended. The function `toggleTheme` normalises any prior state when its write is
accepted: whatever the root attribute holds (any string or nothing) and whatever storage
holds, if the store accepts the new theme under the key, it returns a state whose applied
state `t` is `'dark'` or `'light'` (`'light'` exactly when the attribute was `'dark'`,
`'dark'` in every other case), whose stored preference is `t`, and whose icon, if the icon
exists, carries the class for `t`. If the write raises, `toggleTheme` raises the same error
and the state is as it was. -/
theorem toggleTheme_normalises (s : State) :
    ((∃ ls, s.localStorage.setItem THEME_KEY
          (if s.dataTheme = some "dark" then "light" else "dark") = .ok ls) →
      ∃ s' t, toggleTheme s = .ok s' ∧ s'.dataTheme = some t ∧
        (t = "dark" ∨ t = "light") ∧
        (s.dataTheme = some "dark" → t = "light") ∧
        (s.dataTheme ≠ some "dark" → t = "dark") ∧
        s'.localStorage.getItem THEME_KEY = .ok (some t) ∧
        s'.themeIcon = s.themeIcon.map
          (fun _ => if t = "dark" then "bi bi-sun-fill" else "bi bi-moon-fill")) ∧
      (∀ e, s.localStorage.setItem THEME_KEY
            (if s.dataTheme = some "dark" then "light" else "dark") = .error e →
        toggleTheme s = .error e ∧ step .toggle s = s) := by
  constructor
  · rintro ⟨ls, hw⟩
    obtain ⟨s', h1, _, hst, hd, _, hi⟩ := toggleTheme_next s _ ls rfl hw
    refine ⟨s', _, h1, hd, ?_, ?_, ?_, hst, hi⟩
    · split
      · exact Or.inr rfl
      · exact Or.inl rfl
    · intro h
      rw [if_pos h]
    · intro h
      rw [if_neg h]
  · intro e he
    have hr := toggleTheme_raises s e he
    exact ⟨hr, by simp [step, hr]⟩

theorem toggleTheme_normalises_witness :
    ∃ s' t, toggleTheme ⟨⟨true, 64, [("outline-pdf-theme", "blue")]⟩, false, some "sepia",
        some "bi"⟩ = .ok s' ∧ s'.dataTheme = some t ∧
      (t = "dark" ∨ t = "light") ∧
      ((some "sepia" : Option String) = some "dark" → t = "light") ∧
      ((some "sepia" : Option String) ≠ some "dark" → t = "dark") ∧
      s'.localStorage.getItem THEME_KEY = .ok (some t) ∧
      s'.themeIcon = (some "bi" : Option String).map
        (fun _ => if t = "dark" then "bi bi-sun-fill" else "bi bi-moon-fill") :=
  (toggleTheme_normalises
    ⟨⟨true, 64, [("outline-pdf-theme", "blue")]⟩, false, some "sepia", some "bi"⟩).1
    ⟨_, rfl⟩

/-! ## The empty stored string -/

/-- C16. An empty stored string counts as no preference: when the key holds the empty string
`getPreferredTheme` returns the system theme, and the change listener applies the notified
value, which is exactly what both do on the same state with the key absent. -/
theorem empty_string_is_no_preference (s : State)
    (hs : s.localStorage.getItem THEME_KEY = .ok (some "")) :
    getPreferredTheme s = .ok (getSystemTheme s) ∧
      (∀ v, changeListener v s = .ok (applyTheme (if v then "dark" else "light") s)) ∧
      ∀ ls : LocalStorage, ls.getItem THEME_KEY = .ok none →
        getPreferredTheme { s with localStorage := ls } = .ok (getSystemTheme s) ∧
        ∀ v, changeListener v { s with localStorage := ls } =
          .ok (applyTheme (if v then "dark" else "light") { s with localStorage := ls }) := by
  refine ⟨?_, ?_, ?_⟩
  · simp [getPreferredTheme, hs, truthy]
  · intro v
    simp [changeListener, hs, truthy]
  · intro ls hls
    constructor
    · simp [getPreferredTheme, hls, getSystemTheme]
    · intro v
      simp [changeListener, hls, truthy]

theorem empty_string_is_no_preference_witness :
    getPreferredTheme ⟨⟨true, 64, [("outline-pdf-theme", "")]⟩, true, some "light", some "bi"⟩
        = .ok (getSystemTheme
          ⟨⟨true, 64, [("outline-pdf-theme", "")]⟩, true, some "light", some "bi"⟩) ∧
      (∀ v, changeListener v
          ⟨⟨true, 64, [("outline-pdf-theme", "")]⟩, true, some "light", some "bi"⟩ =
        .ok (applyTheme (if v then "dark" else "light")
          ⟨⟨true, 64, [("outline-pdf-theme", "")]⟩, true, some "light", some "bi"⟩)) ∧
      ∀ ls : LocalStorage, ls.getItem THEME_KEY = .ok none →
        getPreferredTheme { (⟨⟨true, 64, [("outline-pdf-theme", "")]⟩, true, some "light",
            some "bi"⟩ : State) with localStorage := ls } =
          .ok (getSystemTheme
            ⟨⟨true, 64, [("outline-pdf-theme", "")]⟩, true, some "light", some "bi"⟩) ∧
        ∀ v, changeListener v { (⟨⟨true, 64, [("outline-pdf-theme", "")]⟩, true, some "light",
            some "bi"⟩ : State) with localStorage := ls } =
          .ok (applyTheme (if v then "dark" else "light")
            { (⟨⟨true, 64, [("outline-pdf-theme", "")]⟩, true, some "light",
              some "bi"⟩ : State) with localStorage := ls }) :=
  empty_string_is_no_preference
    ⟨⟨true, 64, [("outline-pdf-theme", "")]⟩, true, some "light", some "bi"⟩ (by decide)

end ThemeJs
